import Mathlib

/-!
# Verification of the `yee` JWT middleware (`src/middleware/jwt.go`)

Shallow embedding of the JWT authentication gate of the `yee` web framework
middleware package.  The embedding models:

* `JwtConfig` and `DefaultJwtConfig` (jwt.go lines 14-44),
* the setup phase `JWTWithConfig` (lines 47-78), including the panic on a
  missing signing key and the `strings.Split` / `parts[1]` token-lookup
  resolution,
* the per-request gate closure (lines 79-103), and
* the extractor `jwtFromHeader` (lines 106-115).

Strings manipulated by the code are modelled as Lean `String`s; Go byte
slicing (`auth[:l]`, `auth[l+1:]`) is modelled character-wise via `.data`
(the code's strings are ASCII header material, where bytes and characters
coincide).  The `jwt-go` library (`jwt.Parse` / `jwt.ParseWithClaims`,
an external trusted collaborator) is modelled by an environment `Crypto`
that says how raw credential strings decode, together with `jwtParse`,
which reproduces the library parser's control flow around the `keyFunc`
defined in jwt.go lines 69-74.
-/

namespace Yee

/-- Claim payloads: an open name-to-value mapping (`jwt.MapClaims`-style).
The gate never inspects claim contents, so values are kept as strings. -/
abbrev Claims := List (String × String)

instance instDecEqExcept {ε α : Type} [DecidableEq ε] [DecidableEq α] :
    DecidableEq (Except ε α) := fun x y =>
  match x, y with
  | .ok a, .ok b =>
    if h : a = b then isTrue (by rw [h])
    else isFalse (fun hc => h (Except.ok.inj hc))
  | .error a, .error b =>
    if h : a = b then isTrue (by rw [h])
    else isFalse (fun hc => h (Except.error.inj hc))
  | .ok _, .error _ => isFalse (fun hc => Except.noConfusion hc)
  | .error _, .ok _ => isFalse (fun hc => Except.noConfusion hc)

/-- Character-wise model of Go string slicing `s[:n]`. -/
def strTake (s : String) (n : Nat) : String := String.mk (s.data.take n)

/-- Character-wise model of Go string slicing `s[n:]`. -/
def strDrop (s : String) (n : Nat) : String := String.mk (s.data.drop n)

/-- Character-wise model of Go `len(s)`. -/
def strLen (s : String) : Nat := s.data.length

/-- Splits a character list at every occurrence of `sep`
(the semantics of Go `strings.Split` with a one-character separator). -/
def splitChar (sep : Char) : List Char → List (List Char)
  | [] => [[]]
  | c :: cs =>
    if c = sep then
      [] :: splitChar sep cs
    else
      match splitChar sep cs with
      | [] => [[c]]
      | h :: t => (c :: h) :: t

/-- Model of Go `strings.Split(s, sep)` for a one-character separator
(jwt.go line 76 uses separator `":"`). -/
def goSplit (s : String) (sep : Char) : List String :=
  (splitChar sep s.data).map String.mk

/-- The shape of the `Claims` configuration field: `jwt.MapClaims` (generic
map claims) or a caller-declared struct shape.  The gate only ever inspects
which of the two it is (the type assertion on jwt.go line 85). -/
inductive ClaimsShape where
  | generic
  | typed
deriving DecidableEq, Repr

/-- `JwtConfig` (jwt.go lines 15-25).  `SigningKey interface{}` is nilable,
hence `Option`; key material is opaque and modelled as a string.  The
`Claims jwt.Claims` field is nilable and the gate only uses its dynamic
type, hence `Option ClaimsShape`.  `ErrorHandler` / `SuccessHandler` are
nilable callbacks; the embedding records only their presence, and the gate
result records whether they were invoked. -/
structure JwtConfig where
  GetKey : String
  AuthScheme : String
  SigningKey : Option String
  SigningMethod : String
  TokenLookup : String
  Claims : Option ClaimsShape
  hasErrorHandler : Bool
  hasSuccessHandler : Bool
deriving Repr

/-- `yee.HeaderAuthorization` (from the framework root package, not under
the middleware sources).  Modelled from the spec: the default lookup is
`"header:Authorization"`. -/
def HeaderAuthorization : String := "Authorization"

/-- `DefaultJwtConfig` (jwt.go lines 38-44). -/
def DefaultJwtConfig : JwtConfig :=
  { GetKey := "auth"
    SigningMethod := "HS256"
    AuthScheme := "Bearer"
    TokenLookup := "header:" ++ HeaderAuthorization
    Claims := some .generic
    SigningKey := none
    hasErrorHandler := false
    hasSuccessHandler := false }

/-- A request, as far as the gate observes it: header lookup by name
(`c.Request().Header.Get`, jwt.go line 108). -/
structure Request where
  headers : List (String × String)
deriving Repr

/-- `http.Header.Get`: the header value, or `""` when absent. -/
def headerGet (r : Request) (k : String) : String :=
  match r.headers.lookup k with
  | some v => v
  | none => ""

/-- `jwtFromHeader` (jwt.go lines 106-115): checks
`len(auth) > l+1 && auth[:l] == authScheme` and returns `auth[l+1:]`,
else the error `"missing or malformed jwt"`. -/
def jwtFromHeader (header : String) (authScheme : String)
    (c : Request) : Except String String :=
  let auth := headerGet c header
  let l := strLen authScheme
  if strLen auth > l + 1 ∧ strTake auth l = authScheme then
    .ok (strDrop auth (l + 1))
  else
    .error "missing or malformed jwt"

/-- What decoding a raw credential string yields, when it is well-formed:
the declared header algorithm, the claim payload, the result of the
standard temporal-claims validation (`none` = valid; `some msg` carries
the library's message, e.g. `"Token is expired"`), and whether the
signature verifies under the declared algorithm with a given key. -/
structure TokenData where
  alg : String
  claims : Claims
  claimsValidErr : Option String
  verify : String → Bool

/-- Trusted-library environment: how raw credential strings decode
(`none` = malformed encoding / wrong segment count / claims-shape
decode failure). -/
structure Crypto where
  decode : String → Option TokenData

/-- `*jwt.Token` as the gate observes it: the declared algorithm, the
decoded claims and the `Valid` flag. -/
structure Token where
  alg : String
  claims : Claims
  valid : Bool
deriving DecidableEq, Repr

/-- The zero token `new(jwt.Token)` / a token whose `Valid` is false. -/
def Token.invalid (alg : String) (claims : Claims) : Token :=
  { alg := alg, claims := claims, valid := false }

/-- Result of `jwt.Parse` / `jwt.ParseWithClaims`: the (possibly invalid)
token, the error (`none` on success, otherwise the `Error()` message the
caller sees), and whether a signature verification was ever attempted. -/
structure ParseResult where
  token : Token
  err : Option String
  sigCheckAttempted : Bool
deriving DecidableEq, Repr

/-- The resolved, immutable per-handler configuration produced by the setup
phase of `JWTWithConfig` (after default filling and token-lookup split). -/
structure ResolvedConfig where
  getKey : String
  authScheme : String
  signingKey : String
  signingMethod : String
  headerName : String
  claimsShape : ClaimsShape
  hasErrorHandler : Bool
  hasSuccessHandler : Bool
deriving DecidableEq, Repr

/-- `jwt.Parse`/`jwt.ParseWithClaims` with the `keyFunc` of jwt.go lines
69-74 closed over the resolved configuration.  Mirrors the jwt-go v3
parser: a malformed credential fails outright; then `keyFunc` runs — if
the declared algorithm differs from `config.SigningMethod` it returns
`fmt.Errorf("unexpected jwt signing method=%v", token.Header["alg"])` and
the parser stops before any signature verification; otherwise the claims
are temporally validated and the signature verified, a signature failure
reporting the library message `"signature is invalid"` (when both the
temporal validation and the signature fail, the signature message wins,
as in the jwt-go parser). -/
def jwtParse (crypto : Crypto) (rc : ResolvedConfig) (auth : String) :
    ParseResult :=
  match crypto.decode auth with
  | none =>
    { token := Token.invalid "" []
      err := some "token contains an invalid number of segments"
      sigCheckAttempted := false }
  | some td =>
    if td.alg ≠ rc.signingMethod then
      { token := Token.invalid td.alg td.claims
        err := some ("unexpected jwt signing method=" ++ td.alg)
        sigCheckAttempted := false }
    else if td.verify rc.signingKey then
      match td.claimsValidErr with
      | some m =>
        { token := Token.invalid td.alg td.claims
          err := some m
          sigCheckAttempted := true }
      | none =>
        { token := { alg := td.alg, claims := td.claims, valid := true }
          err := none
          sigCheckAttempted := true }
    else
      { token := Token.invalid td.alg td.claims
        err := some "signature is invalid"
        sigCheckAttempted := true }

/-- Request outcome at the pipeline boundary.  Modelled from the spec:
writing a JSON error response (`c.JSON(status, body)`) halts the pipeline
(no downstream handler executes), while returning without writing a
response forwards control to the next pipeline stage. -/
inductive Outcome where
  | forwarded
  | halted (status : Nat) (body : String)
deriving DecidableEq, Repr

/-- Everything the gate closure did to one request: the outcome, the
entries written into the per-request store (`c.Put`), whether the
configured success/error handlers were invoked, and whether the parse
attempted a signature verification. -/
structure GateResult where
  outcome : Outcome
  store : List (String × Token)
  successHandlerInvoked : Bool
  errorHandlerInvoked : Bool
  sigCheckAttempted : Bool
deriving DecidableEq, Repr

/-- The shared tail of the gate closure (jwt.go lines 95-102):
`if err == nil && token.Valid { c.Put(config.GetKey, token); return }`
followed by `return c.JSON(http.StatusUnauthorized, "invalid or expired
jwt")`.  No success or error handler is invoked anywhere in the source. -/
def gateTail (rc : ResolvedConfig) (pr : ParseResult) : GateResult :=
  if pr.err = none ∧ pr.token.valid then
    { outcome := .forwarded
      store := [(rc.getKey, pr.token)]
      successHandlerInvoked := false
      errorHandlerInvoked := false
      sigCheckAttempted := pr.sigCheckAttempted }
  else
    { outcome := .halted 401 "invalid or expired jwt"
      store := []
      successHandlerInvoked := false
      errorHandlerInvoked := false
      sigCheckAttempted := pr.sigCheckAttempted }

/-- The per-request gate closure returned by `JWTWithConfig`
(jwt.go lines 79-103). -/
def gateRun (crypto : Crypto) (rc : ResolvedConfig) (req : Request) :
    GateResult :=
  match jwtFromHeader rc.headerName rc.authScheme req with
  | .error e =>
    { outcome := .halted 400 e
      store := []
      successHandlerInvoked := false
      errorHandlerInvoked := false
      sigCheckAttempted := false }
  | .ok auth =>
    let pr := jwtParse crypto rc auth
    match rc.claimsShape with
    | .generic =>
      match pr.err with
      | some e =>
        { outcome := .halted 401 e
          store := []
          successHandlerInvoked := false
          errorHandlerInvoked := false
          sigCheckAttempted := pr.sigCheckAttempted }
      | none => gateTail rc pr
    | .typed => gateTail rc pr

/-- Result of the setup phase: either a Go panic (with its message) or a
registered handler with its resolved configuration. -/
inductive SetupResult where
  | panicked (msg : String)
  | ok (rc : ResolvedConfig)
deriving DecidableEq, Repr

/-- The setup phase of `JWTWithConfig` (jwt.go lines 47-78): panic when
`SigningKey` is nil, fill defaults, split `TokenLookup` on `":"` and index
`parts[1]` (a Go index-out-of-range runtime panic when the split has fewer
than two parts), and close the extractor over `parts[1]` and the scheme. -/
def JWTWithConfig (config : JwtConfig) : SetupResult :=
  match config.SigningKey with
  | none => .panicked "yee: jwt middleware requires signing key"
  | some key =>
    let signingMethod :=
      if config.SigningMethod = "" then DefaultJwtConfig.SigningMethod
      else config.SigningMethod
    let getKey :=
      if config.GetKey = "" then DefaultJwtConfig.GetKey else config.GetKey
    let authScheme :=
      if config.AuthScheme = "" then DefaultJwtConfig.AuthScheme
      else config.AuthScheme
    let claims :=
      match config.Claims with
      | none => ClaimsShape.generic
      | some c => c
    let tokenLookup :=
      if config.TokenLookup = "" then DefaultJwtConfig.TokenLookup
      else config.TokenLookup
    let parts := goSplit tokenLookup ':'
    match parts.get? 1 with
    | none => .panicked "runtime error: index out of range"
    | some hdr =>
      .ok
        { getKey := getKey
          authScheme := authScheme
          signingKey := key
          signingMethod := signingMethod
          headerName := hdr
          claimsShape := claims
          hasErrorHandler := config.hasErrorHandler
          hasSuccessHandler := config.hasSuccessHandler }

/-- Observer: did the request halt with an error response
(as opposed to being forwarded downstream)? -/
def Outcome.isHalted : Outcome → Bool
  | .forwarded => false
  | .halted _ _ => true

/-- Observer: the HTTP status of the halting response, if any. -/
def Outcome.statusOf : Outcome → Option Nat
  | .forwarded => none
  | .halted s _ => some s

/-- Observer: the header name the registered extractor will read,
`none` when setup panicked. -/
def SetupResult.resolvedHeaderName : SetupResult → Option String
  | .panicked _ => none
  | .ok rc => some rc.headerName

/-- Did some stage of the gate fail on this request: extraction errored,
or the parse of the extracted credential errored or produced an invalid
token? -/
def stageFailure (crypto : Crypto) (rc : ResolvedConfig) (req : Request) :
    Bool :=
  match jwtFromHeader rc.headerName rc.authScheme req with
  | .error _ => true
  | .ok auth =>
    !((jwtParse crypto rc auth).err.isNone &&
      (jwtParse crypto rc auth).token.valid)

/-! ### Concrete material for witnesses and counterexamples -/

/-- A credential that decodes well-formed, algorithm `HS256`, valid
temporal claims, signature valid exactly under key `"secret"`. -/
def tdGood : TokenData :=
  { alg := "HS256", claims := [("sub", "alice")], claimsValidErr := none
    verify := fun k => k == "secret" }

/-- A credential declaring algorithm `HS384`, whose signature would
verify under any key. -/
def tdBadAlg : TokenData :=
  { alg := "HS384", claims := [("sub", "alice")], claimsValidErr := none
    verify := fun _ => true }

/-- A credential with the right algorithm but an invalid signature. -/
def tdBadSig : TokenData :=
  { alg := "HS256", claims := [("sub", "eve")], claimsValidErr := none
    verify := fun _ => false }

/-- A correctly signed credential whose temporal validation fails. -/
def tdExpired : TokenData :=
  { alg := "HS256", claims := [("sub", "old")]
    claimsValidErr := some "Token is expired"
    verify := fun k => k == "secret" }

/-- A concrete library environment decoding four raw credential strings;
every other string is malformed. -/
def cryptoW : Crypto :=
  { decode := fun s =>
      if s = "good" then some tdGood
      else if s = "badalg" then some tdBadAlg
      else if s = "badsig" then some tdBadSig
      else if s = "expired" then some tdExpired
      else none }

/-- The default resolved configuration with key `"secret"`, generic
claims, and both optional handlers configured. -/
def rcW : ResolvedConfig :=
  { getKey := "auth", authScheme := "Bearer", signingKey := "secret"
    signingMethod := "HS256", headerName := "Authorization"
    claimsShape := .generic, hasErrorHandler := true
    hasSuccessHandler := true }

/-- Request with a well-formed `Bearer` credential that verifies. -/
def reqGood : Request := ⟨[("Authorization", "Bearer good")]⟩

/-- Request whose header value has the scheme but an `X` where the space
separator should be, followed by a credential that verifies. -/
def reqNoSpace : Request := ⟨[("Authorization", "BearerXgood")]⟩

/-- Request with a credential declaring the wrong algorithm. -/
def reqBadAlg : Request := ⟨[("Authorization", "Bearer badalg")]⟩

/-- Request with a wrongly signed credential. -/
def reqBadSig : Request := ⟨[("Authorization", "Bearer badsig")]⟩

/-- Request with an expired credential. -/
def reqExpired : Request := ⟨[("Authorization", "Bearer expired")]⟩

/-- Request using a different auth scheme. -/
def reqBasic : Request := ⟨[("Authorization", "Basic abc")]⟩

/-- A configuration with no signing key. -/
def cfgNoKey : JwtConfig := DefaultJwtConfig

/-- A configuration whose token lookup names a query source. -/
def cfgQuery : JwtConfig :=
  { DefaultJwtConfig with SigningKey := some "secret"
                          TokenLookup := "query:token" }

/-- A configuration whose token lookup has no colon. -/
def cfgNoColon : JwtConfig :=
  { DefaultJwtConfig with SigningKey := some "secret"
                          TokenLookup := "nocolon" }

/-! ### Helper lemmas -/

theorem mk_eq_mk (a b : List Char) : String.mk a = String.mk b ↔ a = b :=
  ⟨congrArg String.data, congrArg String.mk⟩

theorem eq_empty_iff (s : String) : s = "" ↔ s.data = [] := by
  rw [String.ext_iff]

theorem splitChar_eq_single (sep : Char) (l : List Char) (h : sep ∉ l) :
    splitChar sep l = [l] := by
  induction l with
  | nil => rfl
  | cons c cs ih =>
    simp only [List.mem_cons, not_or] at h
    rw [splitChar, if_neg (fun hc => h.1 hc.symm), ih h.2]

theorem splitChar_append_cons (sep : Char) (l₁ l₂ : List Char)
    (h : sep ∉ l₁) :
    splitChar sep (l₁ ++ sep :: l₂) = l₁ :: splitChar sep l₂ := by
  induction l₁ with
  | nil =>
    simp only [List.nil_append]
    rw [splitChar, if_pos rfl]
  | cons c cs ih =>
    simp only [List.mem_cons, not_or] at h
    simp only [List.cons_append]
    rw [splitChar, if_neg (fun hc => h.1 hc.symm), ih h.2]

theorem extract_cond_iff (v s r : List Char) :
    (s.length + 1 < v.length ∧ v.take s.length = s ∧
      v.drop (s.length + 1) = r) ↔
      ∃ sep : Char, v = s ++ sep :: r ∧ r ≠ [] := by
  constructor
  · rintro ⟨h1, h2, h3⟩
    have hl : s.length < v.length := Nat.lt_of_succ_lt h1
    refine ⟨v.get ⟨s.length, hl⟩, ?_, ?_⟩
    · conv_lhs => rw [← List.take_append_drop s.length v]
      rw [h2, List.drop_eq_getElem_cons hl, h3]
      rfl
    · intro hre
      rw [hre] at h3
      have hlen := congrArg List.length h3
      simp only [List.length_drop, List.length_nil] at hlen
      omega
  · rintro ⟨sep, hv, hr⟩
    subst hv
    have hrl : 0 < r.length := List.length_pos.mpr hr
    refine ⟨?_, ?_, ?_⟩
    · simp only [List.length_append, List.length_cons]
      omega
    · simp
    · have hsplit : s ++ sep :: r = (s ++ [sep]) ++ r := by simp
      have hlen : (s ++ [sep]).length = s.length + 1 := by simp
      rw [hsplit, ← hlen, List.drop_left]

theorem jwtFromHeader_ok_eq_iff (hdr scheme : String) (req : Request)
    (r : String) :
    jwtFromHeader hdr scheme req = .ok r ↔
      (scheme.data.length + 1 < (headerGet req hdr).data.length ∧
       (headerGet req hdr).data.take scheme.data.length = scheme.data ∧
       (headerGet req hdr).data.drop (scheme.data.length + 1) = r.data) := by
  unfold jwtFromHeader strLen strTake strDrop
  by_cases hc : (headerGet req hdr).data.length > scheme.data.length + 1 ∧
      String.mk ((headerGet req hdr).data.take scheme.data.length) = scheme
  · rw [if_pos hc]
    simp only [Except.ok.injEq]
    constructor
    · intro hd
      exact ⟨hc.1, (mk_eq_mk _ _).mp hc.2, (mk_eq_mk _ _).mp hd⟩
    · rintro ⟨h1, h2, h3⟩
      exact congrArg String.mk h3
  · rw [if_neg hc]
    constructor
    · intro hd
      exact Except.noConfusion hd
    · rintro ⟨h1, h2, h3⟩
      exact absurd ⟨h1, congrArg String.mk h2⟩ hc

/-! ### Claim theorems -/

/-- Claim C8: for every configuration whose signing key is absent, the
setup phase of `JWTWithConfig` panics with the configuration-error
message, before any per-request gate exists (the panic is a
`SetupResult`, not a `GateResult`). -/
theorem JWTWithConfig_panics_on_nil_key (config : JwtConfig)
    (h : config.SigningKey = none) :
    JWTWithConfig config =
      .panicked "yee: jwt middleware requires signing key" := by
  unfold JWTWithConfig
  rw [h]

/-- Witness for C8: the default configuration has no signing key and
setup panics on it. -/
theorem JWTWithConfig_panics_on_nil_key_witness :
    cfgNoKey.SigningKey = none ∧
    JWTWithConfig cfgNoKey =
      .panicked "yee: jwt middleware requires signing key" :=
  ⟨rfl, JWTWithConfig_panics_on_nil_key cfgNoKey rfl⟩

/-- Counterexample to claim C2 as stated: with scheme `"Bearer"`, the
header value `"BearerXgood"` does not begin with `"Bearer "` (the
scheme-plus-space prefix), yet extraction succeeds, returning
`"good"` — the character at the separator position is skipped without
being checked. -/
theorem jwtFromHeader_separator_not_space_cex :
    jwtFromHeader "Authorization" "Bearer" reqNoSpace = .ok "good" ∧
    strTake (headerGet reqNoSpace "Authorization") 7 ≠ "Bearer " := by
  decide

/-- Claim C2 (amended): extraction succeeds with remainder `r` if and
only if the configured header value is the scheme, then one arbitrary
separator character (not necessarily a space), then the nonempty
remainder `r`; in every other case it fails (the only failure value is
the error `"missing or malformed jwt"`, by the shape of
`jwtFromHeader`). -/
theorem jwtFromHeader_ok_iff (hdr scheme : String) (req : Request)
    (r : String) :
    jwtFromHeader hdr scheme req = .ok r ↔
      ∃ sep : Char,
        headerGet req hdr = scheme ++ String.mk [sep] ++ r ∧ r ≠ "" := by
  rw [jwtFromHeader_ok_eq_iff, extract_cond_iff]
  constructor
  · rintro ⟨sep, hv, hr⟩
    refine ⟨sep, ?_, ?_⟩
    · rw [String.ext_iff]
      simpa [String.data_append] using hv
    · intro hre
      rw [hre] at hr
      exact hr rfl
  · rintro ⟨sep, hv, hr⟩
    refine ⟨sep, ?_, ?_⟩
    · rw [String.ext_iff] at hv
      simpa [String.data_append] using hv
    · intro hre
      exact hr ((eq_empty_iff r).mpr hre)

/-- Witness for C2 (amended): a conventional `"Bearer good"` header
extracts `"good"`, via the space character as the separator. -/
theorem jwtFromHeader_ok_iff_witness :
    jwtFromHeader "Authorization" "Bearer" reqGood = .ok "good" :=
  (jwtFromHeader_ok_iff "Authorization" "Bearer" reqGood "good").mpr
    ⟨' ', by decide, by decide⟩

/-- Claim C1: the gate is fail-closed.  Whenever extraction errors, or
the parse of the extracted credential errors or yields an invalid token
(`stageFailure`), the gate halts with an error response and writes
nothing into the per-request store — control is never forwarded
downstream. -/
theorem jwt_gate_fail_closed (crypto : Crypto) (rc : ResolvedConfig)
    (req : Request) (h : stageFailure crypto rc req = true) :
    (gateRun crypto rc req).outcome.isHalted = true ∧
    (gateRun crypto rc req).store = [] := by
  unfold stageFailure at h
  cases hex : jwtFromHeader rc.headerName rc.authScheme req with
  | error e => simp [gateRun, hex, Outcome.isHalted]
  | ok auth =>
    rw [hex] at h
    have hcond : ¬((jwtParse crypto rc auth).err = none ∧
        (jwtParse crypto rc auth).token.valid = true) := by
      rintro ⟨h1, h2⟩
      simp [h1, h2] at h
    cases hcs : rc.claimsShape with
    | generic =>
      cases herr : (jwtParse crypto rc auth).err with
      | some e => simp [gateRun, hex, hcs, herr, Outcome.isHalted]
      | none =>
        have hv : (jwtParse crypto rc auth).token.valid = false := by
          cases hb : (jwtParse crypto rc auth).token.valid
          · rfl
          · exact absurd ⟨herr, hb⟩ hcond
        simp [gateRun, gateTail, hex, hcs, herr, hv, Outcome.isHalted]
    | typed =>
      cases herr : (jwtParse crypto rc auth).err with
      | some e => simp [gateRun, gateTail, hex, hcs, herr, Outcome.isHalted]
      | none =>
        have hv : (jwtParse crypto rc auth).token.valid = false := by
          cases hb : (jwtParse crypto rc auth).token.valid
          · rfl
          · exact absurd ⟨herr, hb⟩ hcond
        simp [gateRun, gateTail, hex, hcs, herr, hv, Outcome.isHalted]

/-- Witness for C1: an expired credential is a stage failure, and the
gate halts on it with an empty store. -/
theorem jwt_gate_fail_closed_witness :
    stageFailure cryptoW rcW reqExpired = true ∧
    ((gateRun cryptoW rcW reqExpired).outcome.isHalted = true ∧
     (gateRun cryptoW rcW reqExpired).store = []) :=
  ⟨by decide, jwt_gate_fail_closed cryptoW rcW reqExpired (by decide)⟩

/-- Claim C3: a request whose extracted credential decodes well-formed,
declares the configured algorithm, verifies under the configured key and
passes temporal validation is forwarded downstream with no error
response, and the verified token carrying the decoded claim set is
stored under the configured context key. -/
theorem jwt_gate_valid_credential_authenticates
    (crypto : Crypto) (rc : ResolvedConfig) (req : Request)
    (auth : String) (td : TokenData)
    (hex : jwtFromHeader rc.headerName rc.authScheme req = .ok auth)
    (hdec : crypto.decode auth = some td)
    (halg : td.alg = rc.signingMethod)
    (hsig : td.verify rc.signingKey = true)
    (htime : td.claimsValidErr = none) :
    gateRun crypto rc req =
      { outcome := .forwarded
        store := [(rc.getKey,
          { alg := td.alg, claims := td.claims, valid := true })]
        successHandlerInvoked := false
        errorHandlerInvoked := false
        sigCheckAttempted := true } := by
  have hparse : jwtParse crypto rc auth =
      { token := { alg := td.alg, claims := td.claims, valid := true }
        err := none
        sigCheckAttempted := true } := by
    unfold jwtParse
    rw [hdec]
    dsimp only
    rw [if_neg (by simp [halg]), if_pos hsig, htime]
  cases hcs : rc.claimsShape with
  | generic => simp [gateRun, gateTail, hex, hcs, hparse]
  | typed => simp [gateRun, gateTail, hex, hcs, hparse]

/-- Witness for C3: the `"Bearer good"` request authenticates, storing
the verified token with claims `[("sub", "alice")]` under `"auth"`. -/
theorem jwt_gate_valid_credential_authenticates_witness :
    jwtFromHeader rcW.headerName rcW.authScheme reqGood = .ok "good" ∧
    cryptoW.decode "good" = some tdGood ∧
    tdGood.alg = rcW.signingMethod ∧
    tdGood.verify rcW.signingKey = true ∧
    tdGood.claimsValidErr = none ∧
    gateRun cryptoW rcW reqGood =
      { outcome := .forwarded
        store := [(rcW.getKey,
          { alg := tdGood.alg, claims := tdGood.claims, valid := true })]
        successHandlerInvoked := false
        errorHandlerInvoked := false
        sigCheckAttempted := true } :=
  ⟨by decide, rfl, rfl, rfl, rfl,
   jwt_gate_valid_credential_authenticates cryptoW rcW reqGood "good"
     tdGood (by decide) rfl rfl rfl rfl⟩

/-- Claim C4 (refuting the stated invocation, exhibiting the code bug):
on no code path does the gate invoke the configured success or error
handler — the `JwtConfig` fields exist but the returned closure never
references them — even though `reqGood` authenticates under a
configuration with both handlers present and `reqBadSig` is rejected
under it. -/
theorem jwt_gate_handlers_never_invoked :
    (∀ (crypto : Crypto) (rc : ResolvedConfig) (req : Request),
      (gateRun crypto rc req).successHandlerInvoked = false ∧
      (gateRun crypto rc req).errorHandlerInvoked = false) ∧
    rcW.hasSuccessHandler = true ∧
    (gateRun cryptoW rcW reqGood).outcome = .forwarded ∧
    (gateRun cryptoW rcW reqGood).successHandlerInvoked = false ∧
    rcW.hasErrorHandler = true ∧
    (gateRun cryptoW rcW reqBadSig).outcome.isHalted = true ∧
    (gateRun cryptoW rcW reqBadSig).errorHandlerInvoked = false := by
  refine ⟨?_, by decide, by decide, by decide, by decide, by decide,
    by decide⟩
  intro crypto rc req
  cases hex : jwtFromHeader rc.headerName rc.authScheme req with
  | error e => simp [gateRun, hex]
  | ok auth =>
    cases hcs : rc.claimsShape with
    | generic =>
      cases herr : (jwtParse crypto rc auth).err with
      | some e => simp [gateRun, hex, hcs, herr]
      | none =>
        simp only [gateRun, gateTail, hex, hcs, herr]
        split
        · exact ⟨rfl, rfl⟩
        · exact ⟨rfl, rfl⟩
    | typed =>
      simp only [gateRun, gateTail, hex, hcs]
      split
      · exact ⟨rfl, rfl⟩
      · exact ⟨rfl, rfl⟩

/-- Counterexample to claim C5 as stated: two requests failing
verification for different internal reasons (algorithm mismatch versus
invalid signature) receive different 401 bodies, each exposing the
internal failure kind verbatim. -/
theorem jwt_gate_distinct_error_bodies_cex :
    (gateRun cryptoW rcW reqBadAlg).outcome =
      .halted 401 "unexpected jwt signing method=HS384" ∧
    (gateRun cryptoW rcW reqBadSig).outcome =
      .halted 401 "signature is invalid" ∧
    "unexpected jwt signing method=HS384" ≠ "signature is invalid" := by
  decide

/-- Claim C5 (amended): in the generic (`jwt.MapClaims`) configuration,
whenever the parse of the extracted credential fails, the 401 response
body is exactly the internal error message — the failure kind IS exposed
to the caller; the single generic body `"invalid or expired jwt"` is
used only by the typed-claims branch and the invalid-token fallback. -/
theorem jwt_gate_generic_branch_exposes_error
    (crypto : Crypto) (rc : ResolvedConfig) (req : Request)
    (auth m : String)
    (hshape : rc.claimsShape = .generic)
    (hex : jwtFromHeader rc.headerName rc.authScheme req = .ok auth)
    (herr : (jwtParse crypto rc auth).err = some m) :
    (gateRun crypto rc req).outcome = .halted 401 m := by
  simp [gateRun, hex, hshape, herr]

/-- Witness for C5 (amended): the expired credential produces a 401
whose body is the internal library message `"Token is expired"`. -/
theorem jwt_gate_generic_branch_exposes_error_witness :
    rcW.claimsShape = .generic ∧
    jwtFromHeader rcW.headerName rcW.authScheme reqExpired =
      .ok "expired" ∧
    (jwtParse cryptoW rcW "expired").err = some "Token is expired" ∧
    (gateRun cryptoW rcW reqExpired).outcome =
      .halted 401 "Token is expired" :=
  ⟨rfl, by decide, by decide,
   jwt_gate_generic_branch_exposes_error cryptoW rcW reqExpired
     "expired" "Token is expired" rfl (by decide) (by decide)⟩

/-- Claim C6: when the extracted credential declares an algorithm
different from the configured signing method, the parse fails with the
algorithm-mismatch error of `keyFunc` with no signature verification
ever attempted (`sigCheckAttempted = false`), and the gate halts with
status 401 and an empty store — for every `td.verify` whatsoever, in
particular when the signature would verify under the declared
algorithm. -/
theorem jwt_gate_alg_mismatch_rejected
    (crypto : Crypto) (rc : ResolvedConfig) (req : Request)
    (auth : String) (td : TokenData)
    (hex : jwtFromHeader rc.headerName rc.authScheme req = .ok auth)
    (hdec : crypto.decode auth = some td)
    (halg : td.alg ≠ rc.signingMethod) :
    jwtParse crypto rc auth =
      { token := Token.invalid td.alg td.claims
        err := some ("unexpected jwt signing method=" ++ td.alg)
        sigCheckAttempted := false } ∧
    (gateRun crypto rc req).outcome.statusOf = some 401 ∧
    (gateRun crypto rc req).store = [] := by
  have hparse : jwtParse crypto rc auth =
      { token := Token.invalid td.alg td.claims
        err := some ("unexpected jwt signing method=" ++ td.alg)
        sigCheckAttempted := false } := by
    unfold jwtParse
    rw [hdec]
    dsimp only
    rw [if_pos halg]
  refine ⟨hparse, ?_, ?_⟩ <;>
    cases hcs : rc.claimsShape <;>
      simp [gateRun, gateTail, hex, hcs, hparse, Outcome.statusOf]

/-- Witness for C6: `reqBadAlg` carries a credential declaring `HS384`
whose signature would verify under any key, yet the gate rejects it
with 401 and no signature check is attempted. -/
theorem jwt_gate_alg_mismatch_rejected_witness :
    jwtFromHeader rcW.headerName rcW.authScheme reqBadAlg =
      .ok "badalg" ∧
    cryptoW.decode "badalg" = some tdBadAlg ∧
    tdBadAlg.alg ≠ rcW.signingMethod ∧
    tdBadAlg.verify rcW.signingKey = true ∧
    (jwtParse cryptoW rcW "badalg" =
      { token := Token.invalid tdBadAlg.alg tdBadAlg.claims
        err := some ("unexpected jwt signing method=" ++ tdBadAlg.alg)
        sigCheckAttempted := false } ∧
     (gateRun cryptoW rcW reqBadAlg).outcome.statusOf = some 401 ∧
     (gateRun cryptoW rcW reqBadAlg).store = []) :=
  ⟨by decide, rfl, by decide, rfl,
   jwt_gate_alg_mismatch_rejected cryptoW rcW reqBadAlg "badalg" tdBadAlg
     (by decide) rfl (by decide)⟩

/-- Counterexample to claim C7 as stated: the header value
`"BearerXgood"` lacks the exact scheme-plus-space prefix `"Bearer "`,
yet the gate does not respond 400 — it forwards the request and writes
the verified token into the per-request store. -/
theorem jwt_gate_nonspace_prefix_not_400_cex :
    strTake (headerGet reqNoSpace rcW.headerName) 7 ≠ "Bearer " ∧
    gateRun cryptoW rcW reqNoSpace =
      { outcome := .forwarded
        store := [("auth",
          { alg := "HS256", claims := [("sub", "alice")], valid := true })]
        successHandlerInvoked := false
        errorHandlerInvoked := false
        sigCheckAttempted := true } := by
  decide

/-- Claim C7 (amended): whenever the configured header value fails the
check the extractor actually performs — its length is not greater than
`len(scheme) + 1`, or its first `len(scheme)` characters differ from the
scheme (a missing header reads as `""` and always fails it) — the gate
responds 400 with the missing-or-malformed body and the per-request
store is left untouched. -/
theorem jwt_gate_extraction_failure_400
    (crypto : Crypto) (rc : ResolvedConfig) (req : Request)
    (h : ¬(strLen (headerGet req rc.headerName) > strLen rc.authScheme + 1 ∧
           strTake (headerGet req rc.headerName) (strLen rc.authScheme) =
             rc.authScheme)) :
    gateRun crypto rc req =
      { outcome := .halted 400 "missing or malformed jwt"
        store := []
        successHandlerInvoked := false
        errorHandlerInvoked := false
        sigCheckAttempted := false } := by
  have hex : jwtFromHeader rc.headerName rc.authScheme req =
      .error "missing or malformed jwt" := by
    unfold jwtFromHeader
    rw [if_neg h]
  simp [gateRun, hex]

/-- Witness for C7 (amended): a `"Basic abc"` header fails the check
and the gate answers 400 with an empty store. -/
theorem jwt_gate_extraction_failure_400_witness :
    ¬(strLen (headerGet reqBasic rcW.headerName) >
        strLen rcW.authScheme + 1 ∧
      strTake (headerGet reqBasic rcW.headerName)
        (strLen rcW.authScheme) = rcW.authScheme) ∧
    gateRun cryptoW rcW reqBasic =
      { outcome := .halted 400 "missing or malformed jwt"
        store := []
        successHandlerInvoked := false
        errorHandlerInvoked := false
        sigCheckAttempted := false } :=
  ⟨by decide,
   jwt_gate_extraction_failure_400 cryptoW rcW reqBasic (by decide)⟩

/-- Claim C9: for any `TokenLookup` of the form `source ++ ":" ++ name`
(neither part containing a colon) and a present signing key, setup
succeeds and installs `name` as the header key of the extractor — the
declared source (`"query"`, `"cookie"`, anything) is ignored, so the
lookup is always a header lookup, with no not-yet-supported failure. -/
theorem JWTWithConfig_always_header_lookup
    (config : JwtConfig) (key source name : String)
    (hkey : config.SigningKey = some key)
    (hlookup : config.TokenLookup = source ++ ":" ++ name)
    (hs : ':' ∉ source.data) (hn : ':' ∉ name.data) :
    (JWTWithConfig config).resolvedHeaderName = some name := by
  have hdata : config.TokenLookup.data =
      source.data ++ ':' :: name.data := by
    rw [hlookup]
    simp [String.data_append]
  have hne : ¬config.TokenLookup = "" := by
    intro he
    rw [he] at hdata
    exact List.noConfusion ((List.append_eq_nil.mp hdata.symm).2)
  have hsplit : goSplit config.TokenLookup ':' = [source, name] := by
    unfold goSplit
    rw [hdata, splitChar_append_cons _ _ _ hs, splitChar_eq_single _ _ hn]
    rfl
  unfold JWTWithConfig
  rw [hkey]
  dsimp only
  rw [if_neg hne, hsplit]
  rfl

/-- Witness for C9: `TokenLookup = "query:token"` resolves to a header
lookup on the header named `"token"`. -/
theorem JWTWithConfig_always_header_lookup_witness :
    cfgQuery.SigningKey = some "secret" ∧
    cfgQuery.TokenLookup = "query" ++ ":" ++ "token" ∧
    ':' ∉ ("query" : String).data ∧
    ':' ∉ ("token" : String).data ∧
    (JWTWithConfig cfgQuery).resolvedHeaderName = some "token" :=
  ⟨rfl, by decide, by decide, by decide,
   JWTWithConfig_always_header_lookup cfgQuery "secret" "query" "token"
     rfl (by decide) (by decide) (by decide)⟩

/-- Claim C10: a nonempty `TokenLookup` with no colon makes the split
yield a single part, so `parts[1]` is an out-of-bounds access and setup
aborts with a runtime panic distinct from the missing-key panic. -/
theorem JWTWithConfig_colonless_lookup_panics
    (config : JwtConfig) (key : String)
    (hkey : config.SigningKey = some key)
    (hne : config.TokenLookup ≠ "")
    (hnc : ':' ∉ config.TokenLookup.data) :
    JWTWithConfig config = .panicked "runtime error: index out of range" := by
  have hsplit : goSplit config.TokenLookup ':' = [config.TokenLookup] := by
    unfold goSplit
    rw [splitChar_eq_single _ _ hnc]
    rfl
  unfold JWTWithConfig
  rw [hkey]
  dsimp only
  rw [if_neg hne, hsplit]
  rfl

/-- Witness for C10: `TokenLookup = "nocolon"` (signing key present)
panics with the out-of-bounds access at setup. -/
theorem JWTWithConfig_colonless_lookup_panics_witness :
    cfgNoColon.SigningKey = some "secret" ∧
    cfgNoColon.TokenLookup ≠ "" ∧
    ':' ∉ cfgNoColon.TokenLookup.data ∧
    JWTWithConfig cfgNoColon =
      .panicked "runtime error: index out of range" :=
  ⟨rfl, by decide, by decide,
   JWTWithConfig_colonless_lookup_panics cfgNoColon "secret" rfl
     (by decide) (by decide)⟩

end Yee
